import Mathlib

/-!
Verification of `geotag.py` (deric/geotag) against its specification.

The Python source is shallowly embedded: floats are modelled as exact
rationals (`ℚ`), Python `divmod` as floor division with remainder,
fallible code as `Option`/`Except`, and dict iteration order as
insertion-ordered association lists (CPython semantics).
-/

namespace Geotag

/-- Python `divmod(a, b)` on floats, modelled exactly over `ℚ`:
floor division and remainder. -/
def pyDivmod (a b : ℚ) : ℚ × ℚ :=
  ((⌊a / b⌋ : ℚ), a - b * (⌊a / b⌋ : ℚ))

/-- Embeds `On1Tagger.deg2dms` (geotag.py lines 248-260): decompose a decimal
degree value into (degrees, minutes, seconds); for a negative input the
sign is pushed onto one component (degrees if positive, else minutes if
positive, else seconds). -/
def deg2dms (dd : ℚ) : ℚ × ℚ × ℚ :=
  let a := |dd|
  let minutes0 := (pyDivmod (a * 3600) 60).1
  let seconds := (pyDivmod (a * 3600) 60).2
  let degrees := (pyDivmod minutes0 60).1
  let minutes := (pyDivmod minutes0 60).2
  if dd < 0 then
    if degrees > 0 then (-degrees, minutes, seconds)
    else if minutes > 0 then (degrees, -minutes, seconds)
    else (degrees, minutes, -seconds)
  else (degrees, minutes, seconds)

/-- The minutes value from the first `divmod` in `deg2dms`, before the
second `divmod` splits it into degrees and minutes. -/
def rawM0 (x : ℚ) : ℚ := (⌊x * 3600 / 60⌋ : ℚ)

/-- The degrees component produced by `deg2dms` on a non-negative input. -/
def rawD (x : ℚ) : ℚ := (⌊rawM0 x / 60⌋ : ℚ)

/-- The (degrees, minutes, seconds) triple `deg2dms` produces on a
non-negative input, written out arithmetically. -/
def rawTriple (x : ℚ) : ℚ × ℚ × ℚ :=
  (rawD x, rawM0 x - 60 * rawD x, x * 3600 - 60 * rawM0 x)

/-- Number of strictly negative components in a DMS triple. -/
def negCount (d m s : ℚ) : ℕ :=
  (if d < 0 then 1 else 0) + (if m < 0 then 1 else 0) + (if s < 0 then 1 else 0)

/-- The reconstruction described by the specification: sum up
`degrees + minutes/60 + seconds/3600`, negating the reconstruction of the
absolute components when exactly one component is negative. -/
def dmsRecon (d m s : ℚ) : ℚ :=
  if negCount d m s = 1 then -(|d| + |m| / 60 + |s| / 3600)
  else d + m / 60 + s / 3600

/-- Round half to even, as Python float formatting does on the exact value. -/
def rhe (q : ℚ) : ℤ :=
  if Int.fract q < 1/2 then ⌊q⌋
  else if 1/2 < Int.fract q then ⌊q⌋ + 1
  else if ⌊q⌋ % 2 = 0 then ⌊q⌋ else ⌊q⌋ + 1

/-- Pad a digit string on the left with zeros up to the given length. -/
def padZeros (s : String) (len : Nat) : String :=
  if len ≤ s.length then s
  else String.mk (List.replicate (len - s.length) (Char.ofNat 48)) ++ s

/-- Python `format(q, ".⟨prec⟩f")` modelled over `ℚ`: sign of the value,
then the absolute value rounded half-to-even at `prec` decimal digits. -/
def formatFixed (q : ℚ) (prec : Nat) : String :=
  let sign := if q < 0 then "-" else ""
  let n := (rhe (|q| * 10 ^ prec)).toNat
  if prec = 0 then sign ++ toString n
  else sign ++ toString (n / 10 ^ prec) ++ "." ++ padZeros (toString (n % 10 ^ prec)) prec

/-- The apostrophe character, used as the minutes mark. -/
def apos : String := String.singleton (Char.ofNat 39)

/-- The double-quote character, used as the seconds mark. -/
def quot : String := String.singleton (Char.ofNat 34)

/-- Embeds `On1Tagger.geo_format` (geotag.py lines 262-263): degrees and minutes
with no decimals, seconds with six decimals, DMS punctuation in between. -/
def geo_format (h m s : ℚ) : String :=
  formatFixed h 0 ++ "°" ++ formatFixed m 0 ++ apos ++ formatFixed s 6 ++ quot

/-- A rational that is the image of an integer. -/
def isIntegral (q : ℚ) : Prop := ∃ n : ℤ, (n : ℚ) = q

/-! ### String primitives (Python `str` operations over `List Char`) -/

/-- Python `str.split(sep)` for a single-character separator, keeping
empty pieces. -/
def splitChar (sep : Char) : List Char → List (List Char)
  | [] => [[]]
  | c :: rest =>
    let r := splitChar sep rest
    if c = sep then [] :: r
    else (c :: r.headD []) :: r.tail

/-- Python `str.split(", ")`: split on the exact two-character separator,
leftmost-first, keeping empty pieces. -/
def splitCommaSpace : List Char → List (List Char)
  | [] => [[]]
  | [c] => [[c]]
  | c1 :: c2 :: rest =>
    if c1 = ',' ∧ c2 = ' ' then [] :: splitCommaSpace rest
    else
      match splitCommaSpace (c2 :: rest) with
      | [] => [[c1]]
      | g :: gs => (c1 :: g) :: gs

/-- Python `str.split()` with no argument: split on whitespace runs,
dropping empty pieces. -/
def splitWsAux : List Char → List Char → List (List Char)
  | [], acc => if acc.isEmpty then [] else [acc.reverse]
  | c :: rest, acc =>
    if c.isWhitespace then
      if acc.isEmpty then splitWsAux rest []
      else acc.reverse :: splitWsAux rest []
    else splitWsAux rest (c :: acc)

def splitWs (cs : List Char) : List (List Char) := splitWsAux cs []

/-- Python `str.strip()`: drop leading and trailing whitespace. -/
def pyStrip (cs : List Char) : List Char :=
  ((cs.dropWhile Char.isWhitespace).reverse.dropWhile Char.isWhitespace).reverse

/-- Python `str.find(c)`: index of the first occurrence, or -1. -/
def pyFind (c : Char) : List Char → ℤ
  | [] => -1
  | x :: rest =>
    if x = c then 0
    else
      let r := pyFind c rest
      if r = -1 then -1 else r + 1

/-- Value of a digit string (caller checks every char is a digit). -/
def natOfDigits (cs : List Char) : Nat :=
  cs.foldl (fun n c => 10 * n + (c.toNat - 48)) 0

def allDigits (cs : List Char) : Bool := cs.all (fun c => c.isDigit)

/-- Python `float(s)` modelled on the decimal-literal fragment the program
feeds it: optional surrounding whitespace, optional sign, digits with an
optional single decimal point (no exponent, no inf/nan). -/
def parsePyFloat (s : List Char) : Option ℚ :=
  let t := pyStrip s
  let sb : ℚ × List Char :=
    match t with
    | '-' :: rest => (-1, rest)
    | '+' :: rest => (1, rest)
    | _ => (1, t)
  match splitChar '.' sb.2 with
  | [ip] => if ip.length > 0 && allDigits ip then some (sb.1 * natOfDigits ip) else none
  | [ip, fp] =>
    if (ip.length > 0 || fp.length > 0) && allDigits ip && allDigits fp then
      some (sb.1 * ((natOfDigits ip : ℚ) + (natOfDigits fp : ℚ) / 10 ^ fp.length))
    else none
  | _ => none

/-! ### Calendar dates and timestamps -/

structure Date where
  year : ℕ
  month : ℕ
  day : ℕ
deriving DecidableEq

def isLeap (y : ℕ) : Bool := (y % 4 = 0 && y % 100 ≠ 0) || y % 400 = 0

def daysInMonth (y m : ℕ) : ℕ :=
  if m = 2 then (if isLeap y then 29 else 28)
  else if m = 4 ∨ m = 6 ∨ m = 9 ∨ m = 11 then 30 else 31

/-- The trailing timezone part `datetime.fromisoformat` accepts, on the
fragment used by the program: empty, `Z`, or `+HH:MM`. -/
def tzOk : List Char → Bool
  | [] => true
  | ['Z'] => true
  | '+' :: h1 :: h2 :: ':' :: m1 :: m2 :: [] => allDigits [h1, h2, m1, m2]
  | _ => false

/-- The optional time-of-day part after the date: empty, or a separator
`T`/space followed by `HH:MM:SS` and a timezone tail. -/
def timeTailOk : List Char → Bool
  | [] => true
  | sep :: h1 :: h2 :: c1 :: mi1 :: mi2 :: c2 :: s1 :: s2 :: tz =>
    (sep = 'T' || sep = ' ') && c1 = ':' && c2 = ':' &&
      allDigits [h1, h2, mi1, mi2, s1, s2] &&
      natOfDigits [h1, h2] ≤ 23 && natOfDigits [mi1, mi2] ≤ 59 &&
      natOfDigits [s1, s2] ≤ 59 && tzOk tz
  | _ => false

/-- Models `datetime.fromisoformat(s).date()` on the fragment the program uses:
a zero-padded `YYYY-MM-DD` calendar date, optionally followed by a
time-of-day, truncated to the calendar date. -/
def fromisoDate : List Char → Option Date
  | y1 :: y2 :: y3 :: y4 :: '-' :: m1 :: m2 :: '-' :: d1 :: d2 :: rest =>
    if allDigits [y1, y2, y3, y4, m1, m2, d1, d2] then
      let y := natOfDigits [y1, y2, y3, y4]
      let m := natOfDigits [m1, m2]
      let d := natOfDigits [d1, d2]
      if 1 ≤ y ∧ 1 ≤ m ∧ m ≤ 12 ∧ 1 ≤ d ∧ d ≤ daysInMonth y m ∧ timeTailOk rest then
        some ⟨y, m, d⟩
      else none
    else none
  | _ => none

def digitChar (k : ℕ) : Char := Char.ofNat (48 + k)

/-- Zero-padded two-digit decimal rendering (`%m`, `%d`). -/
def pad2c (n : ℕ) : List Char := [digitChar (n / 10 % 10), digitChar (n % 10)]

/-- Zero-padded four-digit decimal rendering (`%Y`, year at most 9999). -/
def pad4c (n : ℕ) : List Char :=
  [digitChar (n / 1000 % 10), digitChar (n / 100 % 10),
   digitChar (n / 10 % 10), digitChar (n % 10)]

/-- Models `date.isoformat()`: the `YYYY-MM-DD` grouping key. -/
def dateKey (d : Date) : String :=
  String.mk (pad4c d.year ++ ('-' :: pad2c d.month) ++ ('-' :: pad2c d.day))

/-! ### `parse_json` (geotag.py lines 34-60) -/

/-- A raw record of a segment's timeline path; a missing field is `none`
(reading it raises `KeyError`). -/
structure PathPoint where
  point : Option String
  time : Option String

structure Segment where
  timelinePath : List PathPoint

structure TimelineDoc where
  semanticSegments : List Segment

structure TrackPoint where
  lat : ℚ
  lon : ℚ
  time : String
deriving DecidableEq

/-- The Python exceptions a single record can raise inside the loop body;
`KeyError` and `ValueError` are caught, `IndexError` is not. -/
inductive RecErr
  | keyError
  | valueError
  | indexError
deriving DecidableEq

/-- The loop body of `parse_json` for one raw record, in the source's
evaluation order: read `point`, strip degree glyphs, split on `", "`,
parse the first float, index the second component, parse it, read `time`,
parse the timestamp, and return the grouping key with the point. -/
def parseRecord (p : PathPoint) : Except RecErr (String × TrackPoint) :=
  match p.point with
  | none => .error .keyError
  | some pt =>
    let coords := splitCommaSpace (pyStrip (pt.data.filter (fun c => c ≠ '°')))
    match parsePyFloat (coords.headD []) with
    | none => .error .valueError
    | some lat =>
      match coords with
      | [] => .error .indexError
      | [_] => .error .indexError
      | _ :: c1 :: _ =>
        match parsePyFloat c1 with
        | none => .error .valueError
        | some lon =>
          match p.time with
          | none => .error .keyError
          | some t =>
            match fromisoDate t.data with
            | none => .error .valueError
            | some d => .ok (dateKey d, ⟨lat, lon, t⟩)

/-- Append a point to its date group, preserving dict insertion order. -/
def addPoint : List (String × List TrackPoint) → String → TrackPoint →
    List (String × List TrackPoint)
  | [], d, tp => [(d, [tp])]
  | (k, ps) :: rest, d, tp =>
    if k = d then (k, ps ++ [tp]) :: rest
    else (k, ps) :: addPoint rest d tp

/-- The record loop of `parse_json`: `KeyError`/`ValueError` skip the
record, an uncaught `IndexError` aborts the whole parse. -/
def parseLoop : List PathPoint → List (String × List TrackPoint) →
    Except RecErr (List (String × List TrackPoint))
  | [], acc => .ok acc
  | p :: rest, acc =>
    match parseRecord p with
    | .ok (d, tp) => parseLoop rest (addPoint acc d tp)
    | .error .indexError => .error .indexError
    | .error _ => parseLoop rest acc

def allRecords (doc : TimelineDoc) : List PathPoint :=
  (doc.semanticSegments.map Segment.timelinePath).flatten

/-- Embeds `parse_json`: group every successfully parsed record by calendar date. -/
def parse_json (doc : TimelineDoc) :
    Except RecErr (List (String × List TrackPoint)) :=
  parseLoop (allRecords doc) []

/-- The records that parse, with their grouping keys, in source order. -/
def okPoints (l : List PathPoint) : List (String × TrackPoint) :=
  l.filterMap (fun p => (parseRecord p).toOption)

/-- The successfully parsed points of key `d`, in source order. -/
def keyPoints (d : String) (l : List PathPoint) : List TrackPoint :=
  (okPoints l).filterMap (fun kt => if kt.1 = d then some kt.2 else none)

/-- The group stored under key `d` (empty when the key is absent). -/
def lookupGroup (d : String) : List (String × List TrackPoint) → List TrackPoint
  | [] => []
  | (k, ps) :: rest => if k = d then ps else lookupGroup d rest

/-- The two-segment example document: two points on 2024-01-15 split
across segments, one point on 2024-01-16 in the first segment. -/
def recA1 : PathPoint := ⟨some "49.5°, 18.1°", some "2024-01-15T10:00:00Z"⟩

def recB : PathPoint := ⟨some "49.6°, 18.2°", some "2024-01-16T11:00:00Z"⟩

def recA2 : PathPoint := ⟨some "49.7°, 18.3°", some "2024-01-15T12:00:00Z"⟩

def tpA1 : TrackPoint := ⟨99/2, 181/10, "2024-01-15T10:00:00Z"⟩

def tpB : TrackPoint := ⟨248/5, 91/5, "2024-01-16T11:00:00Z"⟩

def tpA2 : TrackPoint := ⟨497/10, 183/10, "2024-01-15T12:00:00Z"⟩

def exDoc : TimelineDoc := ⟨[⟨[recA1, recB]⟩, ⟨[recA2]⟩]⟩

/-- A record whose coordinate string has a numeric first component but no
`", "` separator: `coords[1]` raises an uncaught `IndexError`. -/
def badRec : PathPoint := ⟨some "49.5°", some "2024-01-15T10:00:00Z"⟩

def badDoc : TimelineDoc := ⟨[⟨[badRec, recB]⟩]⟩

/-- A record with a non-numeric coordinate component. -/
def nonNumRec : PathPoint := ⟨some "abc, 1.0", some "2024-01-15T10:00:00Z"⟩

/-! ### Track-file paths (geotag.py lines 75-84 and 117-129) -/

/-- A calendar date Python's `datetime` can hold (and whose year renders
in four digits). -/
def validDate (d : Date) : Prop :=
  1 ≤ d.year ∧ d.year ≤ 9999 ∧ 1 ≤ d.month ∧ d.month ≤ 12 ∧
    1 ≤ d.day ∧ d.day ≤ daysInMonth d.year d.month

/-- Embeds `ExifTagger.gpx_path` (geotag.py lines 117-129): join the track root
with `%Y`, `%m` and `%d.gpx` strftime pieces. -/
def gpx_path (root : String) (d : Date) : String :=
  root ++ "/" ++ String.mk (pad4c d.year) ++ "/" ++ String.mk (pad2c d.month) ++ "/" ++
    (String.mk (pad2c d.day) ++ ".gpx")

/-- Models `datetime.strptime(s, "%Y-%m-%d")` on the zero-padded keys the import
loop feeds it. -/
def strptime_date (s : String) : Option Date :=
  match s.data with
  | [y1, y2, y3, y4, c1, m1, m2, c2, d1, d2] =>
    if c1 = '-' ∧ c2 = '-' ∧ allDigits [y1, y2, y3, y4, m1, m2, d1, d2] then
      let y := natOfDigits [y1, y2, y3, y4]
      let m := natOfDigits [m1, m2]
      let d := natOfDigits [d1, d2]
      if 1 ≤ y ∧ 1 ≤ m ∧ m ≤ 12 ∧ 1 ≤ d ∧ d ≤ daysInMonth y m then some ⟨y, m, d⟩
      else none
    else none
  | _ => none

/-- The per-day output path built by `gpx_import` (geotag.py lines 75-84):
re-parse the grouping key with strptime, then join output root, `%Y`,
`%m` and `%d.gpx`. -/
def import_day_path (output_dir : String) (dateStr : String) : Option String :=
  (strptime_date dateStr).map fun d =>
    output_dir ++ "/" ++ String.mk (pad4c d.year) ++ "/" ++ String.mk (pad2c d.month) ++ "/" ++
      (String.mk (pad2c d.day) ++ ".gpx")

/-! ### External tool invocations (`ExifTagger`, geotag.py lines 96-174) -/

/-- Result of a completed external-tool invocation. -/
structure ToolResult where
  returncode : ℤ
  stdout : String

/-- An external-tool invocation either times out or completes. -/
inductive ToolRun
  | timeout
  | completed (r : ToolResult)

/-- A parsed `%Y:%m:%d %H:%M:%S` timestamp. -/
structure DateTime where
  date : Date
  hour : ℕ
  minute : ℕ
  second : ℕ
deriving DecidableEq

/-- Python exceptions the embedded fragments can raise. -/
inductive PyExc
  | attributeError
  | valueError
  | indexError
deriving DecidableEq

/-- Models `datetime.strptime(s, "%Y:%m:%d %H:%M:%S")` on the fixed-width output
the metadata reader produces. -/
def strptimeExif : List Char → Option DateTime
  | [y1, y2, y3, y4, c1, m1, m2, c2, d1, d2, sp, h1, h2, c3, mi1, mi2, c4, s1, s2] =>
    if c1 = ':' ∧ c2 = ':' ∧ sp = ' ' ∧ c3 = ':' ∧ c4 = ':' ∧
        allDigits [y1, y2, y3, y4, m1, m2, d1, d2, h1, h2, mi1, mi2, s1, s2] then
      let y := natOfDigits [y1, y2, y3, y4]
      let m := natOfDigits [m1, m2]
      let d := natOfDigits [d1, d2]
      let h := natOfDigits [h1, h2]
      let mi := natOfDigits [mi1, mi2]
      let s := natOfDigits [s1, s2]
      if 1 ≤ y ∧ 1 ≤ m ∧ m ≤ 12 ∧ 1 ≤ d ∧ d ≤ daysInMonth y m ∧
          h ≤ 23 ∧ mi ≤ 59 ∧ s ≤ 59 then
        some ⟨⟨y, m, d⟩, h, mi, s⟩
      else none
    else none
  | _ => none

/-- Embeds `ExifTagger.date_taken` (geotag.py lines 96-115): a timeout yields no
date; otherwise take everything after the first colon of stdout, drop the
trailing character, strip, and parse it; any failure yields no date (a
non-zero exit status is only printed and does not short-circuit). -/
def date_taken : ToolRun → Option DateTime
  | .timeout => none
  | .completed r =>
    let pos := pyFind ':' r.stdout.data
    if 0 < pos then strptimeExif (pyStrip ((r.stdout.data.drop (pos.toNat + 1)).dropLast))
    else none

/-- Embeds `ExifTagger.process_photo` (geotag.py lines 154-159): resolve the
capture date, then expand the GPX path. When `date_taken` returned `None`,
`gpx_path` calls `None.strftime`, raising an uncaught `AttributeError`. -/
def process_photo (root : String) (run : ToolRun) : Except PyExc String :=
  match date_taken run with
  | none => .error .attributeError
  | some dt => .ok (gpx_path root dt.date)

/-- The directory loop of `ExifTagger.apply` (geotag.py lines 161-174):
no exception handling around `process_photo`, so the first raise aborts. -/
def exif_batch (root : String) : List ToolRun → Except PyExc (List String)
  | [] => .ok []
  | r :: rest =>
    match process_photo root r with
    | .error e => .error e
    | .ok p =>
      match exif_batch root rest with
      | .error e => .error e
      | .ok ps => .ok (p :: ps)

/-- A reader invocation that fails: non-zero exit, empty stdout. -/
def failRun : ToolRun := .completed ⟨1, ""⟩

/-- A reader invocation that succeeds with a parsable capture timestamp. -/
def okRun : ToolRun :=
  .completed ⟨0, "Date/Time Original              : 2024:03:07 10:00:00\n"⟩

/-! ### `On1Tagger` (geotag.py lines 212-343) -/

/-- Embeds `On1Tagger.read_geo` (geotag.py lines 226-246): a timeout yields no
position; otherwise take stdout after its first colon, drop the trailing
character, strip and split on whitespace (non-zero exit is only printed). -/
def read_geo : ToolRun → Option (List (List Char))
  | .timeout => none
  | .completed r =>
    let pos := pyFind ':' r.stdout.data
    if 0 < pos then some (splitWs (pyStrip ((r.stdout.data.drop (pos.toNat + 1)).dropLast)))
    else none

/-- Filesystem and reader state for `gps_from_raw`: whether the upper- and
lower-case RAW extension variants exist, and the reader runs for each. -/
structure RawEnv where
  upperExists : Bool
  lowerExists : Bool
  upperRun : ToolRun
  lowerRun : ToolRun

/-- The `geo` value inside `gps_from_raw`: read the upper-case variant if
it exists, else the lower-case variant, else nothing. -/
def rawGeoList (env : RawEnv) : Option (List (List Char)) :=
  if env.upperExists then read_geo env.upperRun
  else if env.lowerExists then read_geo env.lowerRun
  else none

/-- One coordinate as `gps_from_raw` formats it: `deg2dms` then
`geo_format`. -/
def geoFormatCoord (x : ℚ) : String :=
  geo_format (deg2dms x).1 (deg2dms x).2.1 (deg2dms x).2.2

/-- Embeds `On1Tagger.gps_from_raw` (geotag.py lines 265-285): if no RAW variant
exists or the reader yields nothing (or an empty token list, falsy in
`if geo:`), no coordinate is produced; otherwise the first two tokens are
parsed as floats (`ValueError`/`IndexError` uncaught) and rendered as
`"{lat} N {lon} E"` with fixed hemisphere letters. -/
def gps_from_raw (env : RawEnv) : Except PyExc (Option String) :=
  match rawGeoList env with
  | none => .ok none
  | some [] => .ok none
  | some (g0 :: rest) =>
    match parsePyFloat g0 with
    | none => .error .valueError
    | some lat =>
      match rest with
      | [] => .error .indexError
      | g1 :: _ =>
        match parsePyFloat g1 with
        | none => .error .valueError
        | some lon => .ok (some (geoFormatCoord lat ++ " N " ++ geoFormatCoord lon ++ " E"))

/-- A reader run reporting a southern-hemisphere latitude. -/
def negEnv : RawEnv :=
  ⟨true, false, .completed ⟨0, "GPS Position                    : -18.125 18.125\n"⟩, .timeout⟩

/-- The JSON value of a `GPS` field: JSON null or a string. -/
inductive GpsVal
  | null
  | str (s : String)
deriving DecidableEq

/-- A photo metadata object; `gps = none` means the `GPS` key is absent. -/
structure Meta where
  gps : Option GpsVal
deriving DecidableEq

/-- A photo entry; `metadata = none` means it has no `"metadata"` key. -/
structure Photo where
  metadata : Option Meta
deriving DecidableEq

/-- An on1 sidecar document; `photos = none` means no `"photos"` key. -/
structure Sidecar where
  photos : Option (List (String × Photo))
deriving DecidableEq

/-- What `update_gps` reports for one photo entry. -/
inductive GpsEvent
  | wrote (g : Option String)
  | forcedWrite (old : GpsVal) (new : Option String)
  | noop (g : GpsVal)
  | missingSrc
deriving DecidableEq

/-- The events on which `update_gps` rewrites the sidecar file. -/
def isWriteEvent : GpsEvent → Bool
  | .wrote _ => true
  | .forcedWrite _ _ => true
  | _ => false

/-- Assignment `meta["GPS"] = gps` stores JSON null when `gps_from_raw` returned
nothing. -/
def gpsOfRaw : Option String → GpsVal
  | none => .null
  | some s => .str s

/-- The per-entry policy of `On1Tagger.update_gps` (geotag.py lines
305-326): with the key present, force overwrites (and rewrites the file),
a null value reports missing source data, anything else is a no-op; with
the key absent, the computed value (null on failure) is inserted and the
file rewritten. -/
def updateMeta (force : Bool) (raw : Option String) (m : Meta) : Meta × GpsEvent :=
  match m.gps with
  | some g =>
    if force then (⟨some (gpsOfRaw raw)⟩, .forcedWrite g raw)
    else if g = .null then (m, .missingSrc)
    else (m, .noop g)
  | none => (⟨some (gpsOfRaw raw)⟩, .wrote raw)

/-- One photo entry of the `update_gps` loop: entries without a
`"metadata"` key are skipped. -/
def updatePhoto (force : Bool) (raw : Option String) (p : Photo) : Photo × List GpsEvent :=
  match p.metadata with
  | none => (p, [])
  | some m =>
    let r := updateMeta force raw m
    (⟨some r.1⟩, [r.2])

/-- Embeds `On1Tagger.update_gps` over a whole sidecar: no `"photos"` key means
nothing happens; otherwise every entry is processed in order. -/
def update_gps (force : Bool) (raw : Option String) (sc : Sidecar) :
    Sidecar × List GpsEvent :=
  match sc.photos with
  | none => (sc, [])
  | some entries =>
    let rs := entries.map fun kv => (kv.1, updatePhoto force raw kv.2)
    (⟨some (rs.map fun kr => (kr.1, kr.2.1))⟩, (rs.map fun kr => kr.2.2).flatten)

/-- Whether `update_gps` rewrote the sidecar file: iff some entry produced a write. -/
def fileWritten (evs : List GpsEvent) : Bool := evs.any isWriteEvent

/-- A sidecar with one photo entry carrying metadata but no `GPS` key. -/
def sc8 : Sidecar := ⟨some [("photo1", ⟨some ⟨none⟩⟩)]⟩

/-- An environment where neither RAW extension variant exists. -/
def noRawEnv : RawEnv := ⟨false, false, .timeout, .timeout⟩

theorem deg2dms_of_nonneg (x : ℚ) (hx : 0 ≤ x) : deg2dms x = rawTriple x := by
  have hlt : ¬ x < 0 := not_lt.2 hx
  simp only [deg2dms, pyDivmod, abs_of_nonneg hx, if_neg hlt]
  rfl

theorem rawM0_nonneg (x : ℚ) (hx : 0 ≤ x) : 0 ≤ rawM0 x := by
  have h : (0 : ℚ) ≤ x * 3600 / 60 := by positivity
  unfold rawM0
  exact_mod_cast Int.floor_nonneg.2 h

theorem rawD_nonneg (x : ℚ) (hx : 0 ≤ x) : 0 ≤ rawD x := by
  have h0 := rawM0_nonneg x hx
  have h : (0 : ℚ) ≤ rawM0 x / 60 := by positivity
  unfold rawD
  exact_mod_cast Int.floor_nonneg.2 h

theorem rawMin_bounds (x : ℚ) :
    0 ≤ rawM0 x - 60 * rawD x ∧ rawM0 x - 60 * rawD x < 60 := by
  unfold rawD
  constructor
  · have h := Int.floor_le (rawM0 x / 60)
    nlinarith [h]
  · have h := Int.lt_floor_add_one (rawM0 x / 60)
    nlinarith [h]

theorem rawSec_bounds (x : ℚ) :
    0 ≤ x * 3600 - 60 * rawM0 x ∧ x * 3600 - 60 * rawM0 x < 60 := by
  unfold rawM0
  constructor
  · have h := Int.floor_le (x * 3600 / 60)
    nlinarith [h]
  · have h := Int.lt_floor_add_one (x * 3600 / 60)
    nlinarith [h]

theorem rawTriple_recon (x : ℚ) :
    rawD x + (rawM0 x - 60 * rawD x) / 60 + (x * 3600 - 60 * rawM0 x) / 3600 = x := by
  ring

theorem deg2dms_of_neg (dd : ℚ) (h : dd < 0) :
    deg2dms dd =
      (if 0 < rawD (-dd) then
        (-(rawD (-dd)), (rawTriple (-dd)).2.1, (rawTriple (-dd)).2.2)
      else if 0 < (rawTriple (-dd)).2.1 then
        (rawD (-dd), -((rawTriple (-dd)).2.1), (rawTriple (-dd)).2.2)
      else
        (rawD (-dd), (rawTriple (-dd)).2.1, -((rawTriple (-dd)).2.2))) := by
  simp only [deg2dms, pyDivmod, abs_of_neg h, if_pos h, rawTriple, rawD, rawM0]

/-- On a negative input exactly one component is negated, and the absolute
values of the three components agree with the non-negative decomposition. -/
theorem deg2dms_neg_abs (dd : ℚ) (h : dd < 0) :
    negCount (deg2dms dd).1 (deg2dms dd).2.1 (deg2dms dd).2.2 = 1 ∧
    |(deg2dms dd).1| = rawD (-dd) ∧
    |(deg2dms dd).2.1| = (rawTriple (-dd)).2.1 ∧
    |(deg2dms dd).2.2| = (rawTriple (-dd)).2.2 := by
  have hx : (0:ℚ) ≤ -dd := by linarith
  have hD : 0 ≤ rawD (-dd) := rawD_nonneg (-dd) hx
  have hM : 0 ≤ (rawTriple (-dd)).2.1 ∧ (rawTriple (-dd)).2.1 < 60 := rawMin_bounds (-dd)
  have hS : 0 ≤ (rawTriple (-dd)).2.2 ∧ (rawTriple (-dd)).2.2 < 60 := rawSec_bounds (-dd)
  rw [deg2dms_of_neg dd h]
  by_cases hD0 : 0 < rawD (-dd)
  · rw [if_pos hD0]
    refine ⟨?_, ?_, ?_, ?_⟩
    · simp only [negCount]
      rw [if_pos (by linarith : -(rawD (-dd)) < 0),
        if_neg (not_lt.2 hM.1), if_neg (not_lt.2 hS.1)]
    · rw [abs_neg, abs_of_pos hD0]
    · exact abs_of_nonneg hM.1
    · exact abs_of_nonneg hS.1
  · rw [if_neg hD0]
    have hDz : rawD (-dd) = 0 := le_antisymm (not_lt.1 hD0) hD
    by_cases hM0 : 0 < (rawTriple (-dd)).2.1
    · rw [if_pos hM0]
      refine ⟨?_, ?_, ?_, ?_⟩
      · simp only [negCount]
        rw [if_neg (not_lt.2 hD), if_pos (by linarith : -((rawTriple (-dd)).2.1) < 0),
          if_neg (not_lt.2 hS.1)]
      · exact abs_of_nonneg hD
      · rw [abs_neg, abs_of_pos hM0]
      · exact abs_of_nonneg hS.1
    · rw [if_neg hM0]
      have hMz : (rawTriple (-dd)).2.1 = 0 := le_antisymm (not_lt.1 hM0) hM.1
      have hM0z : rawM0 (-dd) = 0 := by
        have : rawM0 (-dd) - 60 * rawD (-dd) = 0 := hMz
        rw [hDz] at this
        linarith
      have hSpos : 0 < (rawTriple (-dd)).2.2 := by
        show 0 < -dd * 3600 - 60 * rawM0 (-dd)
        rw [hM0z]
        nlinarith
      refine ⟨?_, ?_, ?_, ?_⟩
      · simp only [negCount]
        rw [if_neg (not_lt.2 hD), if_neg (not_lt.2 hM.1),
          if_pos (by linarith : -((rawTriple (-dd)).2.2) < 0)]
      · exact abs_of_nonneg hD
      · exact abs_of_nonneg hM.1
      · rw [abs_neg, abs_of_pos hSpos]

/-- C1: applying `deg2dms` and then reconstructing
`degrees + minutes/60 + seconds/3600` (negating the reconstruction when
exactly one component is negative) recovers the input exactly (the `ℚ`
embedding makes the floating-point tolerance exact). -/
theorem deg2dms_roundtrip (d : ℚ) (h : |d| ≤ 180) :
    dmsRecon (deg2dms d).1 (deg2dms d).2.1 (deg2dms d).2.2 = d := by
  rcases lt_or_le d 0 with hneg | hpos
  · obtain ⟨hcount, hD, hM, hS⟩ := deg2dms_neg_abs d hneg
    unfold dmsRecon
    rw [if_pos hcount, hD, hM, hS]
    have h2 : rawD (-d) + (rawTriple (-d)).2.1 / 60 + (rawTriple (-d)).2.2 / 3600 = -d := by
      show rawD (-d) + (rawM0 (-d) - 60 * rawD (-d)) / 60 +
        (-d * 3600 - 60 * rawM0 (-d)) / 3600 = -d
      ring
    rw [h2]
    ring
  · rw [deg2dms_of_nonneg d hpos]
    have h1 : 0 ≤ (rawTriple d).1 := rawD_nonneg d hpos
    have h2 : 0 ≤ (rawTriple d).2.1 := (rawMin_bounds d).1
    have h3 : 0 ≤ (rawTriple d).2.2 := (rawSec_bounds d).1
    unfold dmsRecon negCount
    rw [if_neg]
    · show rawD d + (rawM0 d - 60 * rawD d) / 60 + (d * 3600 - 60 * rawM0 d) / 3600 = d
      rw [rawTriple_recon d]
    · rw [if_neg (not_lt.2 h1), if_neg (not_lt.2 h2), if_neg (not_lt.2 h3)]
      simp

/-- Witness for C1 at the concrete input -18.125 = -145/8. -/
theorem deg2dms_roundtrip_witness :
    |(-145/8 : ℚ)| ≤ 180 ∧
    dmsRecon (deg2dms (-145/8 : ℚ)).1 (deg2dms (-145/8 : ℚ)).2.1
      (deg2dms (-145/8 : ℚ)).2.2 = -145/8 :=
  ⟨by rw [abs_le]; constructor <;> norm_num,
   deg2dms_roundtrip (-145/8) (by rw [abs_le]; constructor <;> norm_num)⟩

/-- C2: a negative input has exactly one component negated, by decreasing
precedence (degrees if positive, else minutes if positive, else seconds),
relative to the decomposition of the absolute value; a non-negative input
has no negative component; `deg2dms (-18.125) = (-18, 7, 30)`, rendered by
`geo_format` as `-18°7'30.000000"`, and `deg2dms 0 = (0, 0, 0)`. -/
theorem deg2dms_sign_policy (dd : ℚ) :
    (0 ≤ dd → 0 ≤ (deg2dms dd).1 ∧ 0 ≤ (deg2dms dd).2.1 ∧ 0 ≤ (deg2dms dd).2.2) ∧
    (dd < 0 →
      negCount (deg2dms dd).1 (deg2dms dd).2.1 (deg2dms dd).2.2 = 1 ∧
      deg2dms dd =
        (if 0 < (deg2dms (-dd)).1 then
          (-(deg2dms (-dd)).1, (deg2dms (-dd)).2.1, (deg2dms (-dd)).2.2)
        else if 0 < (deg2dms (-dd)).2.1 then
          ((deg2dms (-dd)).1, -(deg2dms (-dd)).2.1, (deg2dms (-dd)).2.2)
        else
          ((deg2dms (-dd)).1, (deg2dms (-dd)).2.1, -(deg2dms (-dd)).2.2))) ∧
    deg2dms (-145/8 : ℚ) = (-18, 7, 30) ∧
    geo_format (-18) 7 30 = "-18°" ++ "7" ++ apos ++ "30.000000" ++ quot ∧
    deg2dms 0 = (0, 0, 0) := by
  refine ⟨?_, ?_, ?_, ?_, ?_⟩
  · intro hpos
    rw [deg2dms_of_nonneg dd hpos]
    exact ⟨rawD_nonneg dd hpos, (rawMin_bounds dd).1, (rawSec_bounds dd).1⟩
  · intro hneg
    refine ⟨(deg2dms_neg_abs dd hneg).1, ?_⟩
    rw [deg2dms_of_nonneg (-dd) (by linarith), deg2dms_of_neg dd hneg]
    rfl
  · have hm : rawM0 (145/8 : ℚ) = 1087 := by unfold rawM0; norm_num
    have hd : rawD (145/8 : ℚ) = 18 := by unfold rawD; rw [hm]; norm_num
    have ht : rawTriple (145/8 : ℚ) = (18, 7, 30) := by
      unfold rawTriple; rw [hm, hd]; norm_num
    have h : deg2dms (-145/8 : ℚ) = _ := deg2dms_of_neg (-145/8) (by norm_num)
    rw [h]
    norm_num [ht, hd]
  · norm_num [geo_format, formatFixed, rhe, Int.fract, padZeros]
    constructor <;> rfl
  · norm_num [deg2dms, pyDivmod]

/-- Witness for C2 at the concrete negative input -18.125 = -145/8. -/
theorem deg2dms_sign_policy_witness :
    (-145/8 : ℚ) < 0 ∧
    negCount (deg2dms (-145/8 : ℚ)).1 (deg2dms (-145/8 : ℚ)).2.1
      (deg2dms (-145/8 : ℚ)).2.2 = 1 :=
  ⟨by norm_num, ((deg2dms_sign_policy (-145/8)).2.1 (by norm_num)).1⟩

theorem isIntegral_of_abs (q : ℚ) (h : isIntegral |q|) : isIntegral q := by
  obtain ⟨n, hn⟩ := h
  rcases abs_cases q with ⟨he, _⟩ | ⟨he, _⟩
  · exact ⟨n, by rw [hn, he]⟩
  · exact ⟨-n, by push_cast; rw [hn, he]; ring⟩

theorem rawD_integral (x : ℚ) : isIntegral (rawD x) := ⟨⌊rawM0 x / 60⌋, rfl⟩

theorem rawMin_integral (x : ℚ) : isIntegral (rawM0 x - 60 * rawD x) :=
  ⟨⌊x * 3600 / 60⌋ - 60 * ⌊rawM0 x / 60⌋, by push_cast [rawM0, rawD]; ring⟩

/-- C10: the `deg2dms` triple always has integral degrees and minutes,
minutes and seconds of magnitude below 60, at most one negative component,
and a negative component only for a negative input. -/
theorem deg2dms_invariants (dd : ℚ) :
    isIntegral (deg2dms dd).1 ∧ isIntegral (deg2dms dd).2.1 ∧
    |(deg2dms dd).2.1| < 60 ∧ |(deg2dms dd).2.2| < 60 ∧
    negCount (deg2dms dd).1 (deg2dms dd).2.1 (deg2dms dd).2.2 ≤ 1 ∧
    (dd < 0 ∨ (0 ≤ (deg2dms dd).1 ∧ 0 ≤ (deg2dms dd).2.1 ∧ 0 ≤ (deg2dms dd).2.2)) := by
  rcases lt_or_le dd 0 with hneg | hpos
  · obtain ⟨hcount, hD, hM, hS⟩ := deg2dms_neg_abs dd hneg
    refine ⟨?_, ?_, ?_, ?_, ?_, Or.inl hneg⟩
    · exact isIntegral_of_abs _ (hD ▸ rawD_integral (-dd))
    · exact isIntegral_of_abs _ (hM ▸ rawMin_integral (-dd))
    · rw [hM]; exact (rawMin_bounds (-dd)).2
    · rw [hS]; exact (rawSec_bounds (-dd)).2
    · rw [hcount]
  · rw [deg2dms_of_nonneg dd hpos]
    have h1 : 0 ≤ (rawTriple dd).1 := rawD_nonneg dd hpos
    have h2 : 0 ≤ (rawTriple dd).2.1 := (rawMin_bounds dd).1
    have h2b : (rawTriple dd).2.1 < 60 := (rawMin_bounds dd).2
    have h3 : 0 ≤ (rawTriple dd).2.2 := (rawSec_bounds dd).1
    have h3b : (rawTriple dd).2.2 < 60 := (rawSec_bounds dd).2
    refine ⟨rawD_integral dd, rawMin_integral dd, ?_, ?_, ?_, Or.inr ⟨h1, h2, h3⟩⟩
    · rw [abs_of_nonneg h2]; exact h2b
    · rw [abs_of_nonneg h3]; exact h3b
    · unfold negCount
      rw [if_neg (not_lt.2 h1), if_neg (not_lt.2 h2), if_neg (not_lt.2 h3)]
      norm_num

theorem lookupGroup_addPoint (acc : List (String × List TrackPoint)) (k : String)
    (tp : TrackPoint) (d : String) :
    lookupGroup d (addPoint acc k tp) =
      if k = d then lookupGroup d acc ++ [tp] else lookupGroup d acc := by
  induction acc with
  | nil =>
    by_cases h : k = d <;> simp [addPoint, lookupGroup, h]
  | cons hd rest ih =>
    obtain ⟨k0, ps⟩ := hd
    simp only [addPoint]
    by_cases h0 : k0 = k
    · rw [if_pos h0]
      by_cases h1 : k0 = d
      · subst h0; subst h1
        simp [lookupGroup]
      · have h2 : ¬ k = d := by rw [← h0]; exact h1
        simp [lookupGroup, h1, h2]
    · rw [if_neg h0]
      by_cases h1 : k0 = d
      · subst h1
        have h2 : ¬ k = k0 := fun hc => h0 hc.symm
        simp [lookupGroup, h2]
      · simp [lookupGroup, h1, ih]

theorem parseLoop_groups (l : List PathPoint) :
    ∀ acc m, parseLoop l acc = .ok m →
      ∀ d, lookupGroup d m = lookupGroup d acc ++ keyPoints d l := by
  induction l with
  | nil =>
    intro acc m h d
    simp only [parseLoop] at h
    cases h
    simp [keyPoints, okPoints]
  | cons p rest ih =>
    intro acc m h d
    simp only [parseLoop] at h
    cases hp : parseRecord p with
    | ok kt =>
      rw [hp] at h
      rw [ih (addPoint acc kt.1 kt.2) m h d, lookupGroup_addPoint]
      have hk : keyPoints d (p :: rest) =
          (if kt.1 = d then [kt.2] else []) ++ keyPoints d rest := by
        simp only [keyPoints, okPoints, List.filterMap_cons, hp, Except.toOption]
        by_cases hd : kt.1 = d <;> simp [hd]
      rw [hk]
      by_cases hd : kt.1 = d <;> simp [hd]
    | error e =>
      rw [hp] at h
      have hk : keyPoints d (p :: rest) = keyPoints d rest := by
        simp [keyPoints, okPoints, List.filterMap_cons, hp, Except.toOption]
      cases e with
      | indexError => exact absurd h (by simp)
      | keyError => rw [hk]; exact ih acc m h d
      | valueError => rw [hk]; exact ih acc m h d

/-- Every successful record parse keeps the original timestamp string and
groups under the truncated calendar date of that timestamp. -/
theorem parseRecord_time (p : PathPoint) (k : String) (tp : TrackPoint)
    (h : parseRecord p = .ok (k, tp)) :
    p.time = some tp.time ∧
    ∃ dt, fromisoDate tp.time.data = some dt ∧ k = dateKey dt := by
  simp only [parseRecord] at h
  repeat' split at h
  all_goals cases h
  exact ⟨by assumption, _, by assumption, rfl⟩

theorem parseRecord_recA1 :
    parseRecord recA1 = .ok (dateKey ⟨2024, 1, 15⟩, tpA1) := by
  simp [parseRecord, recA1, tpA1, parsePyFloat, pyStrip, splitChar, splitCommaSpace,
    allDigits, natOfDigits, fromisoDate, timeTailOk, tzOk, daysInMonth, isLeap]
  norm_num

theorem parseRecord_recB :
    parseRecord recB = .ok (dateKey ⟨2024, 1, 16⟩, tpB) := by
  simp [parseRecord, recB, tpB, parsePyFloat, pyStrip, splitChar, splitCommaSpace,
    allDigits, natOfDigits, fromisoDate, timeTailOk, tzOk, daysInMonth, isLeap]
  norm_num

theorem parseRecord_recA2 :
    parseRecord recA2 = .ok (dateKey ⟨2024, 1, 15⟩, tpA2) := by
  simp [parseRecord, recA2, tpA2, parsePyFloat, pyStrip, splitChar, splitCommaSpace,
    allDigits, natOfDigits, fromisoDate, timeTailOk, tzOk, daysInMonth, isLeap]
  norm_num

theorem dateKey_ne_1516 : dateKey ⟨2024, 1, 15⟩ ≠ dateKey ⟨2024, 1, 16⟩ := by
  decide

theorem parse_json_exDoc :
    parse_json exDoc =
      .ok [(dateKey ⟨2024, 1, 15⟩, [tpA1, tpA2]),
           (dateKey ⟨2024, 1, 16⟩, [tpB])] := by
  simp [parse_json, allRecords, exDoc, parseLoop, addPoint,
    parseRecord_recA1, parseRecord_recB, parseRecord_recA2,
    dateKey_ne_1516, Ne.symm dateKey_ne_1516]

/-- C5: a parse groups each successfully parsed point under the calendar
date truncated from its timestamp, preserves the original timestamp
string, and keeps source order within a day; the two-segment example
document yields two day groups, the first with its two 2024-01-15 points
in source order and the second with the single 2024-01-16 point. -/
theorem parse_json_day_grouping :
    (∀ doc m, parse_json doc = .ok m →
      ∀ d, lookupGroup d m = keyPoints d (allRecords doc)) ∧
    (∀ p k tp, parseRecord p = .ok (k, tp) →
      p.time = some tp.time ∧
      ∃ dt, fromisoDate tp.time.data = some dt ∧ k = dateKey dt) ∧
    parse_json exDoc =
      .ok [(dateKey ⟨2024, 1, 15⟩, [tpA1, tpA2]),
           (dateKey ⟨2024, 1, 16⟩, [tpB])] ∧
    dateKey ⟨2024, 1, 15⟩ = "2024-01-15" := by
  refine ⟨?_, parseRecord_time, parse_json_exDoc, by decide⟩
  intro doc m h d
  have := parseLoop_groups (allRecords doc) [] m h d
  simpa [lookupGroup] using this

/-- Witness for C5 at the example document. -/
theorem parse_json_day_grouping_witness :
    parse_json exDoc =
      .ok [(dateKey ⟨2024, 1, 15⟩, [tpA1, tpA2]),
           (dateKey ⟨2024, 1, 16⟩, [tpB])] ∧
    lookupGroup (dateKey ⟨2024, 1, 15⟩)
        [(dateKey ⟨2024, 1, 15⟩, [tpA1, tpA2]), (dateKey ⟨2024, 1, 16⟩, [tpB])] =
      keyPoints (dateKey ⟨2024, 1, 15⟩) (allRecords exDoc) :=
  ⟨parse_json_day_grouping.2.2.1,
   parse_json_day_grouping.1 exDoc _ parse_json_day_grouping.2.2.1 _⟩

/-- C4 counterexample: a malformed coordinate string without the `", "`
separator aborts the whole parse with an uncaught `IndexError`, so parsing
does not silently skip every malformed record. -/
theorem parse_json_aborts_on_indexError :
    parse_json badDoc = .error .indexError := rfl

/-- C4 (amended): records raising `KeyError` (missing field) or
`ValueError` (non-numeric component, malformed timestamp) are silently
skipped and do not affect later grouping, but a record whose coordinate
string lacks the `", "` separator after a numeric first component raises
an uncaught `IndexError` that aborts the parse. -/
theorem parse_json_skip_policy :
    (∀ p rest acc, parseRecord p = .error .keyError →
      parseLoop (p :: rest) acc = parseLoop rest acc) ∧
    (∀ p rest acc, parseRecord p = .error .valueError →
      parseLoop (p :: rest) acc = parseLoop rest acc) ∧
    (∀ p rest acc, parseRecord p = .error .indexError →
      parseLoop (p :: rest) acc = .error .indexError) := by
  refine ⟨?_, ?_, ?_⟩ <;> (intro p rest acc h; simp [parseLoop, h])

/-- Witness for the amended C4: the non-numeric record is skipped and the
valid record after it still parses into its group. -/
theorem parse_json_skip_policy_witness :
    parseRecord nonNumRec = .error .valueError ∧
    parseLoop [nonNumRec, recB] [] = parseLoop [recB] [] :=
  ⟨rfl, parse_json_skip_policy.2.1 nonNumRec [recB] [] rfl⟩

theorem digitChar_isDigit (k : ℕ) (h : k < 10) : (digitChar k).isDigit = true := by
  interval_cases k <;> decide

theorem digitChar_toNat (k : ℕ) (h : k < 10) : (digitChar k).toNat = 48 + k := by
  interval_cases k <;> decide

theorem natOfDigits_pad4c (n : ℕ) (h : n ≤ 9999) : natOfDigits (pad4c n) = n := by
  simp only [natOfDigits, pad4c, List.foldl]
  rw [digitChar_toNat _ (by omega), digitChar_toNat _ (by omega),
    digitChar_toNat _ (by omega), digitChar_toNat _ (by omega)]
  omega

theorem natOfDigits_pad2c (n : ℕ) (h : n ≤ 99) : natOfDigits (pad2c n) = n := by
  simp only [natOfDigits, pad2c, List.foldl]
  rw [digitChar_toNat _ (by omega), digitChar_toNat _ (by omega)]
  omega

theorem strptime_date_dateKey (d : Date) (h : validDate d) :
    strptime_date (dateKey d) = some d := by
  obtain ⟨hy1, hy2, hm1, hm2, hd1, hd2⟩ := h
  have hdata : (dateKey d).data =
      [digitChar (d.year / 1000 % 10), digitChar (d.year / 100 % 10),
       digitChar (d.year / 10 % 10), digitChar (d.year % 10), '-',
       digitChar (d.month / 10 % 10), digitChar (d.month % 10), '-',
       digitChar (d.day / 10 % 10), digitChar (d.day % 10)] := rfl
  have hdm : daysInMonth d.year d.month ≤ 31 := by
    unfold daysInMonth
    split
    · split <;> omega
    · split <;> omega
  simp only [strptime_date, hdata]
  have hall : allDigits
      [digitChar (d.year / 1000 % 10), digitChar (d.year / 100 % 10),
       digitChar (d.year / 10 % 10), digitChar (d.year % 10),
       digitChar (d.month / 10 % 10), digitChar (d.month % 10),
       digitChar (d.day / 10 % 10), digitChar (d.day % 10)] = true := by
    simp only [allDigits, List.all_cons, List.all_nil, Bool.and_true]
    rw [digitChar_isDigit _ (by omega), digitChar_isDigit _ (by omega),
      digitChar_isDigit _ (by omega), digitChar_isDigit _ (by omega),
      digitChar_isDigit _ (by omega), digitChar_isDigit _ (by omega),
      digitChar_isDigit _ (by omega), digitChar_isDigit _ (by omega)]
    decide
  rw [if_pos ⟨trivial, trivial, hall⟩]
  have hy : natOfDigits
      [digitChar (d.year / 1000 % 10), digitChar (d.year / 100 % 10),
       digitChar (d.year / 10 % 10), digitChar (d.year % 10)] = d.year :=
    natOfDigits_pad4c d.year hy2
  have hm : natOfDigits [digitChar (d.month / 10 % 10), digitChar (d.month % 10)] = d.month :=
    natOfDigits_pad2c d.month (by omega)
  have hd : natOfDigits [digitChar (d.day / 10 % 10), digitChar (d.day % 10)] = d.day :=
    natOfDigits_pad2c d.day (by omega)
  simp only [hy, hm, hd]
  rw [if_pos ⟨hy1, hm1, hm2, hd1, hd2⟩]

/-- C6: the track path for a date is `root/YYYY/MM/DD.gpx` with
zero-padded components (for 2024-03-07: `root/2024/03/07.gpx`), and
the import phase's path construction agrees with the apply phase's
`gpx_path` lookup on every valid calendar date. -/
theorem track_path_layout (root : String) (d : Date) (h : validDate d) :
    gpx_path root ⟨2024, 3, 7⟩ = root ++ "/2024/03/07.gpx" ∧
    import_day_path root (dateKey d) = some (gpx_path root d) := by
  constructor
  · show root ++ "/" ++ String.mk (pad4c 2024) ++ "/" ++ String.mk (pad2c 3) ++ "/" ++
      (String.mk (pad2c 7) ++ ".gpx") = root ++ "/2024/03/07.gpx"
    have h1 : String.mk (pad4c 2024) = "2024" := by decide
    have h2 : String.mk (pad2c 3) = "03" := by decide
    have h3 : String.mk (pad2c 7) = "07" := by decide
    rw [h1, h2, h3]
    apply String.ext
    simp [String.data_append]
  · unfold import_day_path
    rw [strptime_date_dateKey d h]
    rfl

/-- Witness for C6 at root `"gpx"` and date 2024-03-07. -/
theorem track_path_layout_witness :
    validDate ⟨2024, 3, 7⟩ ∧
    import_day_path "gpx" (dateKey ⟨2024, 3, 7⟩) = some (gpx_path "gpx" ⟨2024, 3, 7⟩) :=
  ⟨by constructor <;> simp [daysInMonth],
   (track_path_layout "gpx" ⟨2024, 3, 7⟩ (by constructor <;> simp [daysInMonth])).2⟩

/-- C7: the resolver does return an empty optional when the reader fails,
but the batch then aborts: `process_photo` passes `None` into `gpx_path`,
whose `strftime` call raises an uncaught `AttributeError`, so the next
artifact (here a perfectly resolvable one) is never processed. -/
theorem date_unresolvable_aborts_batch :
    date_taken failRun = none ∧
    date_taken okRun = some ⟨⟨2024, 3, 7⟩, 10, 0, 0⟩ ∧
    exif_batch "gpx" [failRun, okRun] = .error .attributeError :=
  ⟨rfl, by decide, rfl⟩

/-- C3: whenever `gps_from_raw` obtains a position, the coordinate string
is `"{formatted-lat} N {formatted-lon} E"` with literal `N`/`E` hemisphere
letters, for any latitude/longitude signs. -/
theorem gps_from_raw_fixed_hemisphere (env : RawEnv) (g0 g1 : List Char)
    (rest : List (List Char)) (lat lon : ℚ)
    (hg : rawGeoList env = some (g0 :: g1 :: rest))
    (h0 : parsePyFloat g0 = some lat) (h1 : parsePyFloat g1 = some lon) :
    gps_from_raw env =
      .ok (some (geoFormatCoord lat ++ " N " ++ geoFormatCoord lon ++ " E")) := by
  simp [gps_from_raw, hg, h0, h1]

/-- Witness for C3: a negative latitude still renders with the `N` letter. -/
theorem gps_from_raw_fixed_hemisphere_witness :
    gps_from_raw negEnv =
      .ok (some (geoFormatCoord (-145/8) ++ " N " ++ geoFormatCoord (145/8) ++ " E")) :=
  gps_from_raw_fixed_hemisphere negEnv
    ['-', '1', '8', '.', '1', '2', '5'] ['1', '8', '.', '1', '2', '5'] [] (-145/8) (145/8)
    (by decide)
    (by simp [parsePyFloat, pyStrip, splitChar, allDigits, natOfDigits]; norm_num)
    (by simp [parsePyFloat, pyStrip, splitChar, allDigits, natOfDigits]; norm_num)

theorem updateMeta_second (m : Meta) (raw : Option String) :
    (updateMeta false raw (updateMeta false raw m).1).1 = (updateMeta false raw m).1 ∧
    isWriteEvent (updateMeta false raw (updateMeta false raw m).1).2 = false := by
  cases hm : m.gps with
  | none =>
    cases raw <;> simp [updateMeta, hm, gpsOfRaw, isWriteEvent]
  | some g =>
    cases g <;> simp [updateMeta, hm, isWriteEvent]

theorem updatePhoto_second (p : Photo) (raw : Option String) :
    (updatePhoto false raw (updatePhoto false raw p).1).1 = (updatePhoto false raw p).1 ∧
    ((updatePhoto false raw (updatePhoto false raw p).1).2.any isWriteEvent) = false := by
  cases hp : p.metadata with
  | none => simp [updatePhoto, hp]
  | some m =>
    have h := updateMeta_second m raw
    simp only [updatePhoto, hp]
    exact ⟨by simp [h.1], by simp [h.2]⟩

theorem update_gps_second_aux (raw : Option String) (entries : List (String × Photo)) :
    ((entries.map fun kv => (kv.1, (updatePhoto false raw kv.2).1)).map
        fun kv => (kv.1, (updatePhoto false raw kv.2).1)) =
      (entries.map fun kv => (kv.1, (updatePhoto false raw kv.2).1)) ∧
    (((entries.map fun kv => (kv.1, (updatePhoto false raw kv.2).1)).map
        fun kv => (updatePhoto false raw kv.2).2).flatten.any isWriteEvent) = false := by
  induction entries with
  | nil => simp
  | cons kv rest ih =>
    obtain ⟨ih1, ih2⟩ := ih
    simp only [List.map_cons, List.flatten_cons, List.any_append]
    constructor
    · rw [ih1, (updatePhoto_second kv.2 raw).1]
    · rw [ih2, (updatePhoto_second kv.2 raw).2]
      rfl

theorem update_gps_second (sc : Sidecar) (raw : Option String) :
    (update_gps false raw (update_gps false raw sc).1).1 = (update_gps false raw sc).1 ∧
    fileWritten (update_gps false raw (update_gps false raw sc).1).2 = false := by
  cases hp : sc.photos with
  | none =>
    obtain ⟨ph⟩ := sc
    subst hp
    simp [update_gps, fileWritten]
  | some entries =>
    have h := update_gps_second_aux raw entries
    simp only [update_gps, hp, fileWritten]
    constructor
    · rw [Sidecar.mk.injEq, Option.some.injEq]
      simpa using h.1
    · simpa using h.2

/-- C8: without force the adapter inserts a `GPS` string for an entry with
no `GPS` key and a resolvable RAW; a second application on the result is a
no-op that changes nothing and rewrites no file (idempotence); a present
null `GPS` without force is reported as missing source data and left
untouched. -/
theorem update_gps_no_clobber :
    (∀ m s, m.gps = none →
      updateMeta false (some s) m = (⟨some (.str s)⟩, .wrote (some s))) ∧
    (∀ sc raw s, raw = some s →
      (update_gps false raw (update_gps false raw sc).1).1 = (update_gps false raw sc).1 ∧
      fileWritten (update_gps false raw (update_gps false raw sc).1).2 = false) ∧
    (∀ m raw, m.gps = some .null → updateMeta false raw m = (m, .missingSrc)) := by
  refine ⟨?_, ?_, ?_⟩
  · intro m s hm
    simp [updateMeta, hm, gpsOfRaw]
  · intro sc raw s _
    exact update_gps_second sc raw
  · intro m raw hm
    simp [updateMeta, hm]

/-- Witness for C8 on the one-entry sidecar with a resolvable RAW. -/
theorem update_gps_no_clobber_witness :
    updateMeta false (some "gps") ⟨none⟩ = (⟨some (.str "gps")⟩, .wrote (some "gps")) ∧
    (update_gps false (some "gps") (update_gps false (some "gps") sc8).1).1 =
      (update_gps false (some "gps") sc8).1 ∧
    updateMeta false (some "gps") ⟨some .null⟩ = (⟨some .null⟩, .missingSrc) :=
  ⟨update_gps_no_clobber.1 ⟨none⟩ "gps" rfl,
   (update_gps_no_clobber.2.1 sc8 (some "gps") "gps" rfl).1,
   update_gps_no_clobber.2.2 ⟨some .null⟩ (some "gps") rfl⟩

/-- C9 counterexample: with no RAW file and a photo entry lacking a `GPS`
key, `gps_from_raw` does yield no coordinate, but `update_gps` is not a
no-op: it stores `GPS: null` into the entry and rewrites the file. -/
theorem update_gps_writes_null_on_failure :
    gps_from_raw noRawEnv = .ok none ∧
    (update_gps false none sc8).1 ≠ sc8 ∧
    fileWritten (update_gps false none sc8).2 = true :=
  ⟨rfl, by decide, rfl⟩

/-- C9 (amended): a failed GPS extraction (no RAW variant on disk, or the
reader reporting no position) produces no coordinate, and photo entries
that already carry a `GPS` key are left unchanged; but an entry with no
`GPS` key gets an explicit `GPS: null` written into it and the sidecar
file is rewritten. -/
theorem gps_failure_policy :
    (∀ env, rawGeoList env = none → gps_from_raw env = .ok none) ∧
    (∀ run1 run2, rawGeoList ⟨false, false, run1, run2⟩ = none) ∧
    (∀ r, pyFind ':' r.stdout.data ≤ 0 → read_geo (.completed r) = none) ∧
    (∀ m raw g, m.gps = some g → g ≠ .null → updateMeta false raw m = (m, .noop g)) ∧
    (∀ m raw, m.gps = some .null → updateMeta false raw m = (m, .missingSrc)) ∧
    (∀ m, m.gps = none →
      updateMeta false none m = (⟨some .null⟩, .wrote none)) := by
  refine ⟨?_, ?_, ?_, ?_, ?_, ?_⟩
  · intro env hg
    simp [gps_from_raw, hg]
  · intro run1 run2
    simp [rawGeoList]
  · intro r hr
    simp only [read_geo]
    rw [if_neg (not_lt.2 hr)]
  · intro m raw g hm hg
    simp [updateMeta, hm, hg]
  · intro m raw hm
    simp [updateMeta, hm]
  · intro m hm
    simp [updateMeta, hm, gpsOfRaw]

/-- Witness for the amended C9: no-position reader output, a no-op on an
entry with an existing GPS string, and the null write on an entry without
one. -/
theorem gps_failure_policy_witness :
    gps_from_raw noRawEnv = .ok none ∧
    updateMeta false none ⟨some (.str "old")⟩ = (⟨some (.str "old")⟩, .noop (.str "old")) ∧
    updateMeta false none ⟨none⟩ = (⟨some .null⟩, .wrote none) :=
  ⟨gps_failure_policy.1 noRawEnv rfl,
   gps_failure_policy.2.2.2.1 ⟨some (.str "old")⟩ none (.str "old") rfl (by decide),
   gps_failure_policy.2.2.2.2.2 ⟨none⟩ rfl⟩

end Geotag
